import Mathlib

/-!
Verification of the availability/booking service (Express + Google Calendar).

The development shallowly embeds the two request handlers of the source:

* the `/availability` handler: given a date range and a time zone, it fetches
  busy intervals from the remote calendar, then runs a slot-generation loop
  over a fixed working window, filtering candidates that overlap a busy
  interval;
* the `/book` handler: it builds a calendar event from the request payload,
  awaits the remote calendar insert (its failure is caught and produces an
  ok:false response), then fires the Brevo confirmation email and the Jotform
  CRM submission, both of which swallow their own errors.

Timestamps are modelled as minutes (`Nat`); a calendar date is a day index,
so the instant `date T hh:mm Z` is `date * 1440 + 60 * hh + mm`.  External
collaborators (calendar query, calendar insert, email send, CRM post) are
modelled as explicit inputs, and the handlers additionally return the list of
collaborators they actually invoked, in invocation order, together with the
log lines they emit.
-/

/-- A slot candidate produced by the generation loop: source builds
`slot`/`slotEnd` and the derived `isBusy` flag; `available = !isBusy`. -/
structure SlotCandidate where
  startT : Nat
  endT : Nat
  available : Bool
deriving DecidableEq, Repr

/-- The overlap test of the source loop:
`busySlots.some(busy => slot < busyEnd && slotEnd > busyStart)`.
A busy interval is a pair `(busyStart, busyEnd)` in minutes. -/
def isBusySlot (busySlots : List (Nat × Nat)) (slot slotEnd : Nat) : Bool :=
  busySlots.any fun busy => decide (slot < busy.2) && decide (slotEnd > busy.1)

/-- The candidate-generation loop of the `/availability` handler:
`while (slot < endOfDay) { slotEnd = slot + 20min; isBusy = ...; push; slot += 30min }`.
The source constants are `meetingDurationMinutes = 20` and a stride of 30
minutes (`slot.setMinutes(slot.getMinutes() + 30)`).  The source pushes only
available candidates; here the loop returns every candidate with its
`available` flag, and the handler below filters, which is the same list. -/
def slotLoop (busySlots : List (Nat × Nat)) (endOfDay slot : Nat) : List SlotCandidate :=
  if h : slot < endOfDay then
    { startT := slot, endT := slot + 20,
      available := !(isBusySlot busySlots slot (slot + 20)) }
      :: slotLoop busySlots endOfDay (slot + 30)
  else
    []
termination_by endOfDay - slot
decreasing_by omega

/-- The slot generator over a working window `[workStart, workEnd)`
(spec §4.1 `generateSlots`, with the source's fixed 20-minute duration and
30-minute step). -/
def generateSlots (workStart workEnd : Nat) (busySlots : List (Nat × Nat)) :
    List SlotCandidate :=
  slotLoop busySlots workEnd workStart

/-- Closed form of the generation loop: it emits one candidate per stride
position `slot + 30*i` that is strictly below `endOfDay`. -/
theorem slotLoop_eq_map (busySlots : List (Nat × Nat)) (endOfDay slot : Nat) :
    slotLoop busySlots endOfDay slot =
      (List.range ((endOfDay - slot + 29) / 30)).map fun i =>
        { startT := slot + 30 * i, endT := slot + 30 * i + 20,
          available := !(isBusySlot busySlots (slot + 30 * i) (slot + 30 * i + 20)) } := by
  induction slot using slotLoop.induct busySlots endOfDay with
  | case1 slot h ih =>
    rw [slotLoop, dif_pos h]
    have hn : (endOfDay - slot + 29) / 30 = (endOfDay - (slot + 30) + 29) / 30 + 1 := by
      omega
    rw [hn, List.range_succ_eq_map, List.map_cons, ih, List.map_map]
    simp only [List.cons.injEq]
    refine ⟨?_, ?_⟩
    · simp
    · refine List.map_congr_left ?_
      intro i _
      have harith : slot + 30 + 30 * i = slot + 30 * Nat.succ i := by omega
      dsimp only [Function.comp]
      rw [harith]
  | case2 slot h =>
    rw [slotLoop, dif_neg h]
    have hz : (endOfDay - slot + 29) / 30 = 0 := by omega
    rw [hz, List.range_zero, List.map_nil]

/-- Membership characterization of the loop output. -/
theorem slotLoop_mem_iff (busySlots : List (Nat × Nat)) (endOfDay slot : Nat)
    (c : SlotCandidate) :
    c ∈ slotLoop busySlots endOfDay slot ↔
      ∃ k, slot + 30 * k < endOfDay ∧
        c = { startT := slot + 30 * k, endT := slot + 30 * k + 20,
              available := !(isBusySlot busySlots (slot + 30 * k) (slot + 30 * k + 20)) } := by
  rw [slotLoop_eq_map]
  simp only [List.mem_map, List.mem_range]
  constructor
  · rintro ⟨k, hk, rfl⟩
    exact ⟨k, by omega, rfl⟩
  · rintro ⟨k, hk, rfl⟩
    exact ⟨k, by omega, rfl⟩

/-- One entry of the `days` array in the `/availability` response:
`{ date: start, slots: availableSlots }`. -/
structure DaySlots where
  date : Nat
  slots : List (Nat × Nat)
deriving DecidableEq, Repr

/-- The `/availability` handler.  `queryBusy` models the external
`calendar.freebusy.query` collaborator: it receives exactly the data the
source passes (`timeMin` from `start`, `timeMax` from `end`, `timeZone: tz`)
and returns the busy set.  The source then anchors the working window on the
requested start date with fixed UTC hours (`workDayStartHourUTC = 1`,
`workDayEndHourUTC = 9`): `slot.setUTCHours(1,0,0,0)` and
`endOfDay.setUTCHours(9,0,0,0)` on `new Date(start + "T00:00:00Z")`, i.e.
minutes `startDate*1440 + 60` and `startDate*1440 + 540`.  It pushes the
non-busy candidates and responds `{ days: [{ date: start, slots }] }`. -/
def availabilityEndpoint (queryBusy : Nat → Nat → String → List (Nat × Nat))
    (startDate endDate : Nat) (tz : String) : List DaySlots :=
  let busySlots := queryBusy startDate endDate tz
  let slotStart := startDate * 1440 + 60
  let endOfDay := startDate * 1440 + 540
  [{ date := startDate,
     slots := ((slotLoop busySlots endOfDay slotStart).filter fun c => c.available).map
       fun c => (c.startT, c.endT) }]

/-- JavaScript string conversion of a possibly-`undefined` value, as performed
by template literals and `URLSearchParams` in the source. -/
def jsStr : Option String → String
  | some s => s
  | none => "undefined"

/-- The `/book` request body.  The four identity fields that may be absent in
a malformed request are `Option`s; the remaining fields are as in the spec's
BookingRequest data model. -/
structure BookingRequest where
  name : Option String
  email : Option String
  company : String
  website : String
  timezone : String
  focusAreas : List String
  targetCountries : List String
  timeline : String
  primaryChallenge : String
  startISO : Option String
  endISO : Option String
deriving DecidableEq, Repr

/-- The event object the `/book` handler constructs for the calendar insert. -/
structure CalendarEvent where
  summary : String
  description : String
  startDateTime : String
  endDateTime : String
  attendeeEmails : List String
deriving DecidableEq, Repr

/-- The `event` literal of the `/book` handler. -/
def buildEvent (payload : BookingRequest) : CalendarEvent :=
  { summary := "Consultation: " ++ payload.company,
    description := "Booked by: " ++ jsStr payload.name ++ " (" ++ jsStr payload.email
      ++ ")\nPrimary Challenge: " ++ payload.primaryChallenge,
    startDateTime := jsStr payload.startISO,
    endDateTime := jsStr payload.endISO,
    attendeeEmails := [jsStr payload.email] }

/-- The data the remote calendar insert returns on success
(`createdEvent.data`). -/
structure InsertResult where
  htmlLink : String
  hangoutLink : String
deriving DecidableEq, Repr

/-- The JSON body of the `/book` response. -/
structure BookingResult where
  ok : Bool
  message : Option String
  meetLink : Option String
  error : Option String
deriving DecidableEq, Repr

/-- External collaborators the `/book` handler can invoke. -/
inductive Collab where
  | calendarInsert
  | notifySend
  | crmSubmit
deriving DecidableEq, Repr

/-- The environment of one `/book` execution: the remote calendar insert's
response to the event this request builds, and the behaviour of the
best-effort collaborators (whether the Brevo key / Jotform credentials are
configured and whether the respective sends succeed). -/
structure BookEnv where
  insert : CalendarEvent → Except String InsertResult
  brevoKeyPresent : Bool
  brevoSendOk : Bool
  jotformCreds : Bool
  axiosOk : Bool

/-- `sendBrevoConfirmationEmail`: skips when no API key is configured;
otherwise invokes the notification sender and catches any send error,
logging it.  Returns the collaborators invoked and the log lines. -/
def sendBrevoConfirmationEmail (env : BookEnv) (formData : BookingRequest)
    (meetLink : String) : List Collab × List String :=
  if env.brevoKeyPresent then
    if env.brevoSendOk then
      ([Collab.notifySend],
       ["Brevo confirmation email sent to " ++ jsStr formData.email ++ " with link " ++ meetLink,
        "Brevo admin notification sent"])
    else
      ([Collab.notifySend], ["Error sending email via Brevo"])
  else
    ([], ["Brevo API key not found, skipping email notification."])

/-- The fixed-index Jotform submission payload built by `submitToJotform`
(source: the `submissionData` object literal). -/
def submissionData (formData : BookingRequest) : List (String × String) :=
  [("submission[6]", jsStr formData.name),
   ("submission[7]", jsStr formData.email),
   ("submission[8]", formData.company),
   ("submission[9]", formData.website),
   ("submission[10]", formData.timezone),
   ("submission[11]", String.intercalate "\n" formData.focusAreas),
   ("submission[12]", String.intercalate ", " formData.targetCountries),
   ("submission[13]", formData.timeline),
   ("submission[15]", formData.primaryChallenge),
   ("submission[16]", "From: " ++ jsStr formData.startISO ++ "\nTo: " ++ jsStr formData.endISO)]

/-- `submitToJotform`: skips when credentials are missing; otherwise builds
`submissionData` and posts it, catching any transport error and logging it. -/
def submitToJotform (env : BookEnv) (formData : BookingRequest) :
    List Collab × List String :=
  if env.jotformCreds then
    let _data := submissionData formData
    if env.axiosOk then
      ([Collab.crmSubmit], ["Successfully submitted data to Jotform."])
    else
      ([Collab.crmSubmit], ["Error submitting to Jotform"])
  else
    ([], ["Jotform credentials not found, skipping submission."])

/-- The `/book` handler.  It performs no validation of the payload: it builds
the event, awaits the calendar insert, and on a thrown insert error the
`catch` block responds `500 { ok:false, error: error.message }`.  On success
it fires `sendBrevoConfirmationEmail` (not awaited), awaits
`submitToJotform`, and responds `200 { ok:true, message, meetLink }`.
Returns the response body, the collaborators invoked in invocation order,
and the log lines. -/
def book (env : BookEnv) (payload : BookingRequest) :
    BookingResult × List Collab × List String :=
  match env.insert (buildEvent payload) with
  | Except.error msg =>
      ({ ok := false, message := none, meetLink := none, error := some msg },
       [Collab.calendarInsert],
       ["Error creating calendar event: " ++ msg])
  | Except.ok createdEvent =>
      let brevo := sendBrevoConfirmationEmail env payload createdEvent.hangoutLink
      let jotform := submitToJotform env payload
      ({ ok := true, message := some "Consultation booked successfully!",
         meetLink := some createdEvent.hangoutLink, error := none },
       Collab.calendarInsert :: (brevo.1 ++ jotform.1),
       ("Event created: " ++ createdEvent.htmlLink) :: (brevo.2 ++ jotform.2))

/-- A booking request with every identity field missing (used as the concrete
malformed request below). -/
def emptyReq : BookingRequest :=
  { name := none, email := none, company := "", website := "", timezone := "",
    focusAreas := [], targetCountries := [], timeline := "", primaryChallenge := "",
    startISO := none, endISO := none }

/-- An environment whose calendar insert fails. -/
def failEnv : BookEnv :=
  { insert := fun _ => Except.error "Invalid start time",
    brevoKeyPresent := true, brevoSendOk := true, jotformCreds := true, axiosOk := true }

/-- An environment whose calendar insert succeeds and whose best-effort
collaborators succeed. -/
def okEnv : BookEnv :=
  { insert := fun _ => Except.ok { htmlLink := "https://cal/event", hangoutLink := "https://meet/abc" },
    brevoKeyPresent := true, brevoSendOk := true, jotformCreds := true, axiosOk := true }

/-- An environment with the same successful calendar insert as `okEnv` but
whose notification send and CRM submission both fail. -/
def badSideEffectsEnv : BookEnv :=
  { insert := fun _ => Except.ok { htmlLink := "https://cal/event", hangoutLink := "https://meet/abc" },
    brevoKeyPresent := true, brevoSendOk := false, jotformCreds := true, axiosOk := false }

/-- C1: a generated candidate is marked unavailable iff some busy interval
satisfies `candidateStart < busyEnd` and `candidateEnd > busyStart`; in
particular, against a single busy interval, a candidate ending exactly at the
busy start or starting exactly at the busy end is available. -/
theorem candidate_unavailable_iff_overlap (workStart workEnd : Nat)
    (busySlots : List (Nat × Nat)) (c : SlotCandidate)
    (hc : c ∈ generateSlots workStart workEnd busySlots) :
    (c.available = false ↔ ∃ b ∈ busySlots, c.startT < b.2 ∧ c.endT > b.1) ∧
    (∀ b : Nat × Nat, busySlots = [b] → (c.endT = b.1 ∨ c.startT = b.2) →
      c.available = true) := by
  rw [generateSlots, slotLoop_mem_iff] at hc
  obtain ⟨k, hk, rfl⟩ := hc
  constructor
  · simp [isBusySlot, List.any_eq_true]
  · rintro b rfl hedge
    simp only [isBusySlot, List.any_cons, List.any_nil, Bool.or_false]
    simp only [SlotCandidate.mk.injEq] at hedge ⊢
    simp only [Bool.not_eq_true', Bool.and_eq_false_imp, decide_eq_true_eq,
      decide_eq_false_iff_not]
    simp at hedge ⊢
    omega

/-- Witness for C1 at a concrete input: window `[0,60)`, busy set `[(20,40)]`;
the candidate `[30,50)` overlaps and is marked unavailable. -/
theorem candidate_unavailable_iff_overlap_witness :
    (((⟨30, 50, false⟩ : SlotCandidate)).available = false ↔
      ∃ b ∈ [((20 : Nat), (40 : Nat))],
        ((⟨30, 50, false⟩ : SlotCandidate)).startT < b.2 ∧
        ((⟨30, 50, false⟩ : SlotCandidate)).endT > b.1) ∧
    (∀ b : Nat × Nat, [((20 : Nat), (40 : Nat))] = [b] →
      (((⟨30, 50, false⟩ : SlotCandidate)).endT = b.1 ∨
        ((⟨30, 50, false⟩ : SlotCandidate)).startT = b.2) →
      ((⟨30, 50, false⟩ : SlotCandidate)).available = true) :=
  candidate_unavailable_iff_overlap 0 60 [(20, 40)] ⟨30, 50, false⟩
    ((slotLoop_mem_iff _ _ _ _).mpr ⟨1, by omega, rfl⟩)

/-- C7: over any 8-hour working window with an empty busy set, the generator
produces exactly 16 candidates, all available, the first starting at the
window start, the last starting 30 minutes before the window end, in
ascending chronological order. -/
theorem generateSlots_empty_busy_sixteen (workStart : Nat) :
    (generateSlots workStart (workStart + 480) []).length = 16 ∧
    (∀ c ∈ generateSlots workStart (workStart + 480) [], c.available = true) ∧
    (generateSlots workStart (workStart + 480) []).head? =
      some { startT := workStart, endT := workStart + 20, available := true } ∧
    ((generateSlots workStart (workStart + 480) []).getLast?).map SlotCandidate.startT =
      some (workStart + 480 - 30) ∧
    (generateSlots workStart (workStart + 480) []).Pairwise
      (fun a b => a.startT < b.startT) := by
  have hmap : generateSlots workStart (workStart + 480) [] =
      (List.range 16).map fun i =>
        { startT := workStart + 30 * i, endT := workStart + 30 * i + 20,
          available := true } := by
    rw [generateSlots, slotLoop_eq_map]
    have h16 : (workStart + 480 - workStart + 29) / 30 = 16 := by omega
    rw [h16]
    rfl
  refine ⟨?_, ?_, ?_, ?_, ?_⟩
  · rw [hmap]; simp
  · rw [hmap]
    intro c hc
    simp only [List.mem_map, List.mem_range] at hc
    obtain ⟨i, _, rfl⟩ := hc
    rfl
  · rw [hmap, List.head?_map]
    rfl
  · rw [hmap, List.getLast?_map]
    have hlast : (List.range 16).getLast? = some 15 := rfl
    rw [hlast]
    simp only [Option.map_some']
    simp only [Option.some.injEq]
    omega
  · rw [hmap, List.pairwise_map]
    refine List.Pairwise.imp ?_ (List.pairwise_lt_range 16)
    intro a b hab
    dsimp only
    omega

/-- C8: the loop emits a candidate exactly at the stride positions whose
start is strictly below the window end (the candidate's end may exceed the
window end), and the output is empty exactly when the window is degenerate
(`workdayStart ≥ workdayEnd`). -/
theorem slot_emitted_iff_start_before_end (workStart workEnd : Nat)
    (busySlots : List (Nat × Nat)) :
    (∀ k : Nat, (∃ c ∈ generateSlots workStart workEnd busySlots,
        c.startT = workStart + 30 * k ∧ c.endT = workStart + 30 * k + 20) ↔
      workStart + 30 * k < workEnd) ∧
    (generateSlots workStart workEnd busySlots = [] ↔ workEnd ≤ workStart) := by
  constructor
  · intro k
    constructor
    · rintro ⟨c, hc, hs, _he⟩
      rw [generateSlots, slotLoop_mem_iff] at hc
      obtain ⟨j, hj, rfl⟩ := hc
      simp only [SlotCandidate.mk.injEq] at hs
      omega
    · intro hk
      exact ⟨_, (slotLoop_mem_iff _ _ _ _).mpr ⟨k, hk, rfl⟩, rfl, rfl⟩
  · constructor
    · intro hempty
      by_contra hgt
      have hmem := (slotLoop_mem_iff busySlots workEnd workStart _).mpr
        ⟨0, by omega, rfl⟩
      rw [generateSlots] at hempty
      rw [hempty] at hmem
      exact absurd hmem (List.not_mem_nil _)
    · intro hle
      rw [generateSlots, slotLoop_eq_map]
      have hz : (workEnd - workStart + 29) / 30 = 0 := by omega
      rw [hz]
      rfl

/-- C2 counterexample: at a concrete booking request with every required
identity field missing (`name`, `email`, `startISO`, `endISO` all absent),
the handler does NOT behave as the claim states: it is false that it both
returns `ok:false` and invokes no external collaborator, because the
calendar insert collaborator is invoked. -/
theorem book_missing_fields_counterexample :
    ¬ ((book failEnv emptyReq).1.ok = false ∧
       Collab.calendarInsert ∉ (book failEnv emptyReq).2.1) := by
  intro h
  exact h.2 (by rw [book]; exact List.mem_cons_self _ _)

/-- C2 amended: the handler performs no validation at all; for every request
(including any with missing identity fields or `startISO ≥ endISO`) it
invokes the calendar insert collaborator, and it returns `ok:false` exactly
when that insert fails. -/
theorem book_no_validation (env : BookEnv) (req : BookingRequest) :
    Collab.calendarInsert ∈ (book env req).2.1 ∧
    ((book env req).1.ok = false ↔
      ∃ msg, env.insert (buildEvent req) = Except.error msg) := by
  cases h : env.insert (buildEvent req) with
  | error msg => simp [book, h]
  | ok r => simp [book, h]

/-- C3: whenever the remote calendar insert fails, the handler returns
`ok:false` carrying the error message, and neither the notification sender
nor the CRM submission collaborator is invoked. -/
theorem book_insert_failure_aborts (env : BookEnv) (req : BookingRequest)
    (msg : String) (h : env.insert (buildEvent req) = Except.error msg) :
    (book env req).1.ok = false ∧
    (book env req).1.error = some msg ∧
    Collab.notifySend ∉ (book env req).2.1 ∧
    Collab.crmSubmit ∉ (book env req).2.1 := by
  simp [book, h]

/-- Witness for C3: a concrete request against an environment whose
calendar insert fails with "Invalid start time". -/
theorem book_insert_failure_aborts_witness :
    (book failEnv emptyReq).1.ok = false ∧
    (book failEnv emptyReq).1.error = some "Invalid start time" ∧
    Collab.notifySend ∉ (book failEnv emptyReq).2.1 ∧
    Collab.crmSubmit ∉ (book failEnv emptyReq).2.1 :=
  book_insert_failure_aborts failEnv emptyReq "Invalid start time" rfl

/-- C4: whenever the remote calendar insert succeeds, the handler returns
`ok:true` with the conference link taken from the insert result, and the
response body is identical no matter how the notification send or the CRM
submission behave (their failures are never surfaced). -/
theorem book_insert_success_isolates_best_effort (env1 env2 : BookEnv)
    (req : BookingRequest) (r : InsertResult)
    (h1 : env1.insert (buildEvent req) = Except.ok r)
    (h2 : env2.insert (buildEvent req) = Except.ok r) :
    (book env1 req).1.ok = true ∧
    (book env1 req).1.meetLink = some r.hangoutLink ∧
    (book env1 req).1 = (book env2 req).1 := by
  simp [book, h1, h2]

/-- Witness for C4: the same successful insert, once with succeeding
best-effort collaborators and once with both the notification send and the
CRM submission failing; the response body is the same `ok:true`. -/
theorem book_insert_success_isolates_best_effort_witness :
    (book okEnv emptyReq).1.ok = true ∧
    (book okEnv emptyReq).1.meetLink =
      some (InsertResult.hangoutLink ⟨"https://cal/event", "https://meet/abc"⟩) ∧
    (book okEnv emptyReq).1 = (book badSideEffectsEnv emptyReq).1 :=
  book_insert_success_isolates_best_effort okEnv badSideEffectsEnv emptyReq
    ⟨"https://cal/event", "https://meet/abc"⟩ rfl rfl

/-- C5: the CRM submission payload maps the request fields to exactly the
fixed indices 6..16 with the exact separators: focus areas joined by a
newline, target countries joined by a comma and space, and index 16 holding
the start/end range. -/
theorem submissionData_fixed_mapping (n e c w tz tl pc s en : String)
    (fa tc : List String) :
    submissionData
      { name := some n, email := some e, company := c, website := w,
        timezone := tz, focusAreas := fa, targetCountries := tc,
        timeline := tl, primaryChallenge := pc,
        startISO := some s, endISO := some en } =
      [("submission[6]", n),
       ("submission[7]", e),
       ("submission[8]", c),
       ("submission[9]", w),
       ("submission[10]", tz),
       ("submission[11]", String.intercalate "\n" fa),
       ("submission[12]", String.intercalate ", " tc),
       ("submission[13]", tl),
       ("submission[15]", pc),
       ("submission[16]", "From: " ++ s ++ "\nTo: " ++ en)] := rfl

/-- C9: in every execution of the handler, any best-effort collaborator
occurring in the invocation trace occurs strictly after the calendar insert,
and only in executions whose insert succeeded. -/
theorem insert_precedes_best_effort (env : BookEnv) (req : BookingRequest)
    (coll : Collab) (hmem : coll ∈ (book env req).2.1)
    (hne : coll ≠ Collab.calendarInsert) :
    (∃ r, env.insert (buildEvent req) = Except.ok r) ∧
    ∃ l1 l2, (book env req).2.1 = l1 ++ coll :: l2 ∧
      Collab.calendarInsert ∈ l1 := by
  cases h : env.insert (buildEvent req) with
  | error msg =>
    rw [book] at hmem
    rw [h] at hmem
    simp at hmem
    exact absurd hmem hne
  | ok r =>
    refine ⟨⟨r, rfl⟩, ?_⟩
    rw [book] at hmem ⊢
    rw [h] at hmem ⊢
    simp only [List.mem_cons] at hmem
    rcases hmem with heq | htail
    · exact absurd heq hne
    · obtain ⟨s, t, hst⟩ := List.append_of_mem htail
      refine ⟨Collab.calendarInsert :: s, t, ?_, List.mem_cons_self _ _⟩
      simp [hst]

/-- Witness for C9: with a successful insert and all collaborators
configured, the notification sender occurs in the trace strictly after the
calendar insert. -/
theorem insert_precedes_best_effort_witness :
    (∃ r, okEnv.insert (buildEvent emptyReq) = Except.ok r) ∧
    ∃ l1 l2, (book okEnv emptyReq).2.1 = l1 ++ Collab.notifySend :: l2 ∧
      Collab.calendarInsert ∈ l1 :=
  insert_precedes_best_effort okEnv emptyReq Collab.notifySend
    (by rw [book]; exact List.mem_cons_of_mem _ (by rw [sendBrevoConfirmationEmail]; simp [okEnv, submitToJotform]))
    (by simp)

/-- C6 counterexample: an availability request for the two-day range
`[0, 1]` with no busy intervals does not produce one entry per day of the
range; the `days` array it returns is not `[day 0, day 1]`-shaped. -/
theorem availability_multiday_counterexample :
    ¬ ((availabilityEndpoint (fun _ _ _ => []) 0 1 "UTC").map DaySlots.date
        = [0, 1]) := by
  simp [availabilityEndpoint]

/-- C6 amended: for every availability request, the response contains
exactly one per-day entry, labelled with the range's start date; days after
the first are never covered. -/
theorem availability_single_day_entry
    (queryBusy : Nat → Nat → String → List (Nat × Nat))
    (startDate endDate : Nat) (tz : String) :
    (availabilityEndpoint queryBusy startDate endDate tz).map DaySlots.date
        = [startDate] ∧
    (availabilityEndpoint queryBusy startDate endDate tz).length = 1 := by
  simp [availabilityEndpoint]

/-- C10: two availability requests for the same dates whose busy fetches
return the same busy set produce identical responses regardless of the `tz`
parameter, and every returned slot lies in the fixed 01:00-09:00 UTC window
of the start date (start at or after 01:00, strictly before 09:00, end 20
minutes after start). -/
theorem tz_does_not_influence_slots
    (queryBusy : Nat → Nat → String → List (Nat × Nat))
    (startDate endDate : Nat) (tz1 tz2 : String)
    (h : queryBusy startDate endDate tz1 = queryBusy startDate endDate tz2) :
    availabilityEndpoint queryBusy startDate endDate tz1
      = availabilityEndpoint queryBusy startDate endDate tz2 ∧
    ∀ d ∈ availabilityEndpoint queryBusy startDate endDate tz1,
      ∀ p ∈ d.slots,
        startDate * 1440 + 60 ≤ p.1 ∧ p.1 < startDate * 1440 + 540 ∧
        p.2 = p.1 + 20 := by
  constructor
  · rw [availabilityEndpoint, availabilityEndpoint, h]
  · intro d hd p hp
    rw [availabilityEndpoint] at hd
    simp only [List.mem_singleton] at hd
    subst hd
    simp only [List.mem_map, List.mem_filter] at hp
    obtain ⟨c, ⟨hcmem, _⟩, rfl⟩ := hp
    rw [slotLoop_mem_iff] at hcmem
    obtain ⟨k, hk, rfl⟩ := hcmem
    dsimp only
    refine ⟨by omega, by omega, rfl⟩

/-- Witness for C10: a concrete busy-fetch function whose result does not
depend on the time zone yields identical slot lists for two different `tz`
values. -/
theorem tz_does_not_influence_slots_witness :
    availabilityEndpoint (fun _ _ _ => [(70, 100)]) 0 3 "Asia/Kuala_Lumpur"
      = availabilityEndpoint (fun _ _ _ => [(70, 100)]) 0 3 "UTC" ∧
    ∀ d ∈ availabilityEndpoint (fun _ _ _ => [(70, 100)]) 0 3 "Asia/Kuala_Lumpur",
      ∀ p ∈ d.slots,
        0 * 1440 + 60 ≤ p.1 ∧ p.1 < 0 * 1440 + 540 ∧ p.2 = p.1 + 20 :=
  tz_does_not_influence_slots (fun _ _ _ => [(70, 100)]) 0 3
    "Asia/Kuala_Lumpur" "UTC" rfl
